import Mathlib

/-!
Verification development for the v4panel control panel's instance-record
storage protocol.  The JavaScript handlers that read and write instance
records are shallowly embedded as pure Lean functions over an explicit
store state (`DB`).  Each handler definition is a direct translation of
the corresponding route handler or helper function in the source tree:

* `adminSuspendInstance` / `adminUnsuspendInstance` — the
  `POST /admin/instances/(un)suspend/:id` handlers.
* `apiSuspendInstance` / `apiUnsuspendInstance` — the storage effect of
  the `POST /api/instances/(un)suspend` handlers in `routes/api.js`.
* `apiDeleteInstance` — `deleteInstance` in `routes/api.js`;
  `adminDeleteInstance` — `deleteInstance` in the admin-instances router.
* `updateInstanceInUserAndGlobalArrays` — the array synchronizer in
  `routes/Instance/Startup.js`.
* `updateInstanceInDatabase` / `editUpdateList` — the list update logic of
  `routes/Instance/Edit.js`, together with `editHandler`, the
  `PUT /instances/edit/:id` pipeline.
* `editNodeCall` / `reinstallNodeCall` — the axios call policies of the
  edit and reinstall handlers (retry and status validation behaviour).
* `reinstallHandler` — the `POST /instance/reinstall/:id` pipeline.
* `isUserAuthorizedForContainer` — the authorization helper.
* `viewInstanceHandler` — the `GET /instance/:id` view pipeline.

JavaScript dynamic values are modelled just as far as the handlers
inspect them: the stored `suspended` field may be a boolean, `undefined`
or some other non-boolean value (`SuspVal`); optional string fields are
`Option String` with the empty string also counting as falsy, matching
the `||` defaulting idiom of the source.
-/

/-- Value stored in an instance record's `suspended` property.  The
source code guards with `typeof instance.suspended === "boolean"` and
`instance.suspended === true`, so booleans, `undefined` and arbitrary
other values must all be representable. -/
inductive SuspVal where
  | bool (b : Bool)
  | undef
  | other
deriving DecidableEq, Repr

/-- Truthiness of a `SuspVal` under the JavaScript strict comparison
`=== true` used by all suspension checks in the source. -/
def SuspVal.isTrue : SuspVal → Bool
  | .bool b => b
  | _ => false

/-- Embedded node reference `{address, port, apiKey, id}` stored inside
an instance record. -/
structure NodeRef where
  id : String
  address : String
  port : Nat
  apiKey : String
deriving DecidableEq, Repr

/-- Instance record, the canonical entity of the panel.  Fields are the
ones the verified handlers read or write; `Node` is optional because
handlers explicitly test `!instance.Node`. -/
structure Instance where
  Id : String
  ContainerId : String
  Name : String
  Image : String
  Memory : Nat
  Cpu : Nat
  Env : List String
  Node : Option NodeRef
  User : String
  Primary : Bool
  suspended : SuspVal
  suspendedFlagg : Bool
  suspendedAt : Option String
  unsuspendedAt : Option String
  State : Option String
  updatedAt : String
deriving DecidableEq, Repr

/-- User record as read by `isUserAuthorizedForContainer`. -/
structure PanelUser where
  userId : String
  username : String
  admin : Bool
  accessTo : List String
deriving DecidableEq, Repr

/-- Association-list lookup, modelling `db.get(key)` (returns
`undefined`, here `none`, for an absent key). -/
def kvGet {α : Type} (l : List (String × α)) (k : String) : Option α :=
  (l.find? (fun p => p.1 = k)).map (fun p => p.2)

/-- Association-list update, modelling `db.set(key, value)`. -/
def kvSet {α : Type} (l : List (String × α)) (k : String) (v : α) :
    List (String × α) :=
  if l.any (fun p => p.1 = k) then
    l.map (fun p => if p.1 = k then (k, v) else p)
  else
    l ++ [(k, v)]

/-- Association-list removal, modelling `db.delete(key)`. -/
def kvDel {α : Type} (l : List (String × α)) (k : String) :
    List (String × α) :=
  l.filter (fun p => p.1 ≠ k)

/-- Store state visible to the embedded handlers: the per-instance keys
(`${cid}_instance`), the per-user lists (`${user}_instances`), the
global `instances` list, the `users` list and the `images` list (only
the image names matter to the modelled handlers).  The global list and
the users list are read with a `.catch(() => [])` / `|| []` default in
every handler modelled here, so they are carried directly as lists. -/
structure DB where
  instKeys : List (String × Instance)
  userLists : List (String × List Instance)
  globalList : List Instance
  users : List PanelUser
  images : List String
deriving DecidableEq, Repr

/-- Outcome of the admin suspend/unsuspend routes (they redirect with a
session flash message; only the outcome category matters here). -/
inductive AResp where
  | success
  | errMissingId
  | errNotFound
deriving DecidableEq, Repr

/-- Handler `POST /admin/instances/suspend/:id`: loads the record at
`${id}_instance`, writes it back with `suspended: true` (the source
issues this set twice, inside and before a `Promise.all`, which is
idempotent), then maps over the global `instances` list setting
`suspended: true` on every entry whose `Id` equals the record's `Id`.
The owning user's `${User}_instances` list is not touched. -/
def adminSuspendInstance (id : String) (db : DB) : AResp × DB :=
  if id = "" then (.errMissingId, db)
  else
    match kvGet db.instKeys (id ++ "_instance") with
    | none => (.errNotFound, db)
    | some inst =>
      let updatedInstance := { inst with suspended := .bool true }
      let db1 := { db with
        instKeys := kvSet db.instKeys (id ++ "_instance") updatedInstance }
      let updatedInstances := db1.globalList.map (fun obj =>
        if obj.Id = inst.Id then { obj with suspended := .bool true } else obj)
      (.success, { db1 with globalList := updatedInstances })

/-- Handler `POST /admin/instances/unsuspend/:id`: writes the record
back with `suspended: false` and the legacy `suspended-flagg` property
deleted, then maps over the global list doing the same for every entry
whose `Id` matches.  The owning user's list is not touched. -/
def adminUnsuspendInstance (id : String) (db : DB) : AResp × DB :=
  if id = "" then (.errMissingId, db)
  else
    match kvGet db.instKeys (id ++ "_instance") with
    | none => (.errNotFound, db)
    | some inst =>
      let updatedInstance :=
        { inst with suspended := .bool false, suspendedFlagg := false }
      let db1 := { db with
        instKeys := kvSet db.instKeys (id ++ "_instance") updatedInstance }
      let updatedInstances := db1.globalList.map (fun obj =>
        if obj.Id = inst.Id then
          { obj with suspended := .bool false, suspendedFlagg := false }
        else obj)
      (.success, { db1 with globalList := updatedInstances })

/-- First-match in-place mutation: the pure rendering of
`list.find(p)` followed by mutating the found object's fields — only the
first entry satisfying `p` is rewritten, and the whole list is then
stored back. -/
def mutateFirst (p : Instance → Bool) (f : Instance → Instance) :
    List Instance → List Instance
  | [] => []
  | x :: xs => if p x then f x :: xs else x :: mutateFirst p f xs

/-- Storage effect of `POST /api/instances/suspend` in `routes/api.js`:
the record at `${id}_instance` is rewritten with `suspended: true` and a
`suspendedAt` timestamp, then in the global list the first entry whose
`ContainerId` equals the record's `ContainerId` (located with `find`,
mutated in place) gets the same two fields, and the list is stored back.
The owning user's `${User}_instances` list is not touched.  Both
`new Date().toISOString()` calls are modelled by the single `now` token;
the route answers 404 (here `none`) when the record is missing. -/
def apiSuspendInstance (id now : String) (db : DB) : Option DB :=
  match kvGet db.instKeys (id ++ "_instance") with
  | none => none
  | some inst =>
    let inst1 := { inst with suspended := .bool true, suspendedAt := some now }
    let db1 := { db with
      instKeys := kvSet db.instKeys (id ++ "_instance") inst1 }
    let instances1 := mutateFirst
      (fun obj => obj.ContainerId = inst1.ContainerId)
      (fun obj => { obj with suspended := .bool true, suspendedAt := some now })
      db1.globalList
    some { db1 with globalList := instances1 }

/-- Storage effect of `POST /api/instances/unsuspend` in
`routes/api.js`: identical shape to the suspend route with
`suspended: false` and an `unsuspendedAt` timestamp — again locating the
global entry by `ContainerId` via `find` and leaving the owning user's
list untouched. -/
def apiUnsuspendInstance (id now : String) (db : DB) : Option DB :=
  match kvGet db.instKeys (id ++ "_instance") with
  | none => none
  | some inst =>
    let inst1 :=
      { inst with suspended := .bool false, unsuspendedAt := some now }
    let db1 := { db with
      instKeys := kvSet db.instKeys (id ++ "_instance") inst1 }
    let instances1 := mutateFirst
      (fun obj => obj.ContainerId = inst1.ContainerId)
      (fun obj =>
        { obj with suspended := .bool false, unsuspendedAt := some now })
      db1.globalList
    some { db1 with globalList := instances1 }

/-- Array synchronizer of `routes/Instance/Startup.js`
(`updateInstanceInUserAndGlobalArrays`): in both the owning user's list
and the global list, every entry whose `Id` equals the record's `Id` is
filtered out and the record is pushed at the end. -/
def updateInstanceInUserAndGlobalArrays (instanceData : Instance) (db : DB) :
    DB :=
  let userKey := instanceData.User ++ "_instances"
  let userInstances := (kvGet db.userLists userKey).getD []
  let userInstances1 :=
    (userInstances.filter (fun inst => inst.Id ≠ instanceData.Id))
      ++ [instanceData]
  let db1 := { db with userLists := kvSet db.userLists userKey userInstances1 }
  let globalInstances1 :=
    (db1.globalList.filter (fun inst => inst.Id ≠ instanceData.Id))
      ++ [instanceData]
  { db1 with globalList := globalInstances1 }

/-- List update step of `updateInstanceInDatabase` in
`routes/Instance/Edit.js`: `findIndex` locates the entry whose
`ContainerId` equals the old container id `id`; if found it is replaced
by the spread `{...entry, ...updatedInstance}` (which overwrites every
modelled field, hence equals `updatedInstance`); if not found the list
is left entirely unchanged (the batch never sets that key).  The
returned flag records whether the entry was found. -/
def editUpdateList (lst : List Instance) (id : String)
    (updatedInstance : Instance) : List Instance × Bool :=
  match lst.findIdx? (fun inst => inst.ContainerId = id) with
  | some i => (lst.set i updatedInstance, true)
  | none => (lst, false)

/-- Database update of `routes/Instance/Edit.js`
(`updateInstanceInDatabase`): builds the updated record (fields from the
request when provided, `ContainerId` relocated to `newContainerId`,
`updatedAt` stamped), then in one batch sets the record under the new
key, deletes the old key, and replaces the entry found by old
`ContainerId` in the user list and the global list — each list only when
such an entry was found. -/
def updateInstanceInDatabase (id : String) (inst : Instance)
    (Image : Option String) (Memory Cpu : Option Nat)
    (newContainerId now : String) (db : DB) : Instance × DB :=
  let updatedInstance := { inst with
    Image := Image.getD inst.Image,
    Memory := Memory.getD inst.Memory,
    Cpu := Cpu.getD inst.Cpu,
    ContainerId := newContainerId,
    updatedAt := now }
  let userKey := inst.User ++ "_instances"
  let userInstances := (kvGet db.userLists userKey).getD []
  let userResult := editUpdateList userInstances id updatedInstance
  let globalResult := editUpdateList db.globalList id updatedInstance
  let instKeys1 :=
    kvSet db.instKeys (newContainerId ++ "_instance") updatedInstance
  let instKeys2 := kvDel instKeys1 (id ++ "_instance")
  (updatedInstance,
   { db with
     instKeys := instKeys2,
     userLists :=
       if userResult.2 then kvSet db.userLists userKey userResult.1
       else db.userLists,
     globalList := if globalResult.2 then globalResult.1 else db.globalList })

/-- Helper `deleteInstance` of `routes/api.js`.  The remote
`axios.delete` is awaited inside the same `try` block that performs the
local cleanup; its failure (`remoteOk = false`) jumps to the `catch`,
which logs — right under the comment "Even if the node is down, we
should clean up our records" — and rethrows, so none of the three local
removals happen.  On remote success the user list and global list are
filtered by `ContainerId` and the key `${Id}_instance` is deleted.  The
returned flag is `true` exactly when the helper resolved (the route then
answers 200; on `false` it answers 500). -/
def apiDeleteInstance (inst : Instance) (remoteOk : Bool) (db : DB) :
    Bool × DB :=
  if remoteOk then
    let userKey := inst.User ++ "_instances"
    let userInstances := (kvGet db.userLists userKey).getD []
    let userInstances1 :=
      userInstances.filter (fun obj => obj.ContainerId ≠ inst.ContainerId)
    let db1 := { db with userLists := kvSet db.userLists userKey userInstances1 }
    let globalInstances1 :=
      db1.globalList.filter (fun obj => obj.ContainerId ≠ inst.ContainerId)
    let db2 := { db1 with globalList := globalInstances1 }
    (true, { db2 with instKeys := kvDel db2.instKeys (inst.Id ++ "_instance") })
  else
    (false, db)

/-- Structural validation `validateInstance` of the admin-instances
router: `Id`, `ContainerId`, `User`, `Node` must be truthy and the node
must carry `id`, `address`, `port`, `apiKey`. -/
def validateInstance (inst : Instance) : Bool :=
  if inst.Id = "" || inst.ContainerId = "" || inst.User = "" then false
  else
    match inst.Node with
    | none => false
    | some node =>
      !(node.id = "" || node.address = "" || node.port = 0 || node.apiKey = "")

/-- Helper `deleteInstance` of the admin-instances router.  The remote
delete sits in its own `try`/`catch` with `validateStatus: () => true`,
so its outcome — including transport failure — is ignored.  The user
list and the global list are filtered by stable `Id` and the key
`${Id}_instance` is deleted regardless of the remote outcome.  (The
workflow-file cleanup is outside the store model.) -/
def adminDeleteInstance (inst : Instance) (remoteOk : Bool) (db : DB) :
    Bool × DB :=
  if !validateInstance inst then (false, db)
  else
    let _ := remoteOk
    let userKey := inst.User ++ "_instances"
    let userInstances1 :=
      ((kvGet db.userLists userKey).getD []).filter
        (fun obj => obj.Id ≠ inst.Id)
    let globalInstances1 :=
      db.globalList.filter (fun obj => obj.Id ≠ inst.Id)
    (true,
     { db with
       userLists := kvSet db.userLists userKey userInstances1,
       globalList := globalInstances1,
       instKeys := kvDel db.instKeys (inst.Id ++ "_instance") })

/-- Outcome of a single attempted HTTP request to the node daemon. -/
inductive NodeOutcome where
  | timeout
  | netFail
  | resp (status : Nat) (containerId : Option String)
deriving DecidableEq, Repr

/-- Error raised by an axios call: `timeout` is `ECONNABORTED`,
`netFail` is any other transport failure (no `error.response`), and
`httpStatus s` carries `error.response.status`. -/
inductive CallErr where
  | timeout
  | netFail
  | httpStatus (s : Nat)
deriving DecidableEq, Repr

/-- Single axios attempt of the edit handler.  Its request config sets
`validateStatus: (status) => status < 500`, so any response with status
below 500 — including every 4xx — resolves successfully; only 5xx
statuses and transport failures reject. -/
def axiosEditOnce : NodeOutcome → Except CallErr (Option String)
  | .timeout => .error .timeout
  | .netFail => .error .netFail
  | .resp s body => if s < 500 then .ok body else .error (.httpStatus s)

/-- Retry predicate of the edit handler's `.catch`:
`error.code === 'ECONNABORTED' || (error.response && error.response.status >= 500)`.
A transport failure that is not a timeout has neither, so it is not
retried. -/
def editRetryable : CallErr → Bool
  | .timeout => true
  | .netFail => false
  | .httpStatus s => 500 ≤ s

/-- Node call of the edit handler: one attempt, and on a retryable
rejection exactly one further attempt whose outcome is final. -/
def editNodeCall (a1 a2 : NodeOutcome) : Except CallErr (Option String) :=
  match axiosEditOnce a1 with
  | .ok r => .ok r
  | .error e => if editRetryable e then axiosEditOnce a2 else .error e

/-- Number of HTTP attempts the edit handler's node call makes. -/
def editNodeCallAttempts (a1 : NodeOutcome) : Nat :=
  match axiosEditOnce a1 with
  | .ok _ => 1
  | .error e => if editRetryable e then 2 else 1

/-- Single axios attempt of the reinstall handler.  Its request config
sets no `validateStatus`, so the axios default (only 2xx resolves)
applies. -/
def axiosReinstallOnce : NodeOutcome → Except CallErr (Option String)
  | .timeout => .error .timeout
  | .netFail => .error .netFail
  | .resp s body =>
    if 200 ≤ s && s < 300 then .ok body else .error (.httpStatus s)

/-- Node call of the reinstall handler: `await axios(requestData)` with
no `.catch` retry — the first outcome is final and the potential second
attempt is never used. -/
def reinstallNodeCall (a1 a2 : NodeOutcome) :
    Except CallErr (Option String) :=
  let _ := a2
  axiosReinstallOnce a1

/-- Memory cap of the edit handler (1 TB in MB). -/
def MAX_MEMORY : Nat := 1024 * 1024

/-- CPU cap of the edit handler. -/
def MAX_CPU : Nat := 1024

/-- Truthiness of an optional string request parameter: `undefined` and
the empty string are falsy. -/
def jsTruthyOptStr : Option String → Bool
  | none => false
  | some s => s ≠ ""

/-- Truthiness of an optional numeric request parameter: `undefined` and
`0` are falsy. -/
def jsTruthyOptNat : Option Nat → Bool
  | none => false
  | some n => n ≠ 0

/-- Range validation of the `Memory` parameter: present
(`Memory !== undefined`) but outside `(0, MAX_MEMORY]`. -/
def editMemoryInvalid : Option Nat → Bool
  | none => false
  | some m => m = 0 || MAX_MEMORY < m

/-- Range validation of the `Cpu` parameter: present but outside
`(0, MAX_CPU]`. -/
def editCpuInvalid : Option Nat → Bool
  | none => false
  | some c => c = 0 || MAX_CPU < c

/-- Validation of the `Image` parameter: the check only fires when
`Image` is truthy, and rejects strings longer than 512 characters. -/
def editImageInvalid (img : Option String) : Bool :=
  jsTruthyOptStr img && (img.getD "").length > 512

/-- Response category of the `PUT /instances/edit/:id` handler. -/
inductive EditResp where
  | ok (oldContainerId newContainerId : String)
  | err (code : Nat)
deriving DecidableEq, Repr

/-- Handler `PUT /instances/edit/:id` of `routes/Instance/Edit.js`.
Arguments `a1 a2` are the outcomes the node daemon would give the first
and (if made) second HTTP attempt; the middle component of the result is
the number of HTTP attempts actually made (0 when the request is
rejected before any remote call).  The pipeline is, in source order:
admin gate, id validation, at-least-one-parameter check (truthiness),
`Memory`/`Cpu` range checks, `Image` length check, record lookup, node
configuration check, the node call with single-retry policy, the
`newContainerId` presence check, and finally `updateInstanceInDatabase`.
No suspension check appears anywhere in this pipeline. -/
def editHandler (admin : Bool) (id : String) (Image : Option String)
    (Memory Cpu : Option Nat) (a1 a2 : NodeOutcome) (now : String)
    (db : DB) : EditResp × Nat × DB :=
  if !admin then (.err 403, 0, db)
  else if id = "" || 64 < id.length then (.err 400, 0, db)
  else if !(jsTruthyOptStr Image || jsTruthyOptNat Memory
      || jsTruthyOptNat Cpu) then (.err 400, 0, db)
  else if editMemoryInvalid Memory then (.err 400, 0, db)
  else if editCpuInvalid Cpu then (.err 400, 0, db)
  else if editImageInvalid Image then (.err 400, 0, db)
  else
    match kvGet db.instKeys (id ++ "_instance") with
    | none => (.err 404, 0, db)
    | some inst =>
      match inst.Node with
      | none => (.err 500, 0, db)
      | some node =>
        if node.address = "" || node.port = 0 || node.apiKey = "" then
          (.err 500, 0, db)
        else
          let attempts := editNodeCallAttempts a1
          match editNodeCall a1 a2 with
          | .error e =>
            -- catch: statusCode = error.response?.status || 500
            let code := match e with
              | .httpStatus s => s
              | _ => 500
            (.err code, attempts, db)
          | .ok none =>
            -- throw new Error("Invalid response from node API") → 500
            (.err 500, attempts, db)
          | .ok (some newContainerId) =>
            let updated :=
              updateInstanceInDatabase id inst Image Memory Cpu
                newContainerId now db
            (.ok id newContainerId, attempts, updated.2)

/-- Authorization helper `isUserAuthorizedForContainer` of the auth
utility module: falsy arguments fail fast; an unknown user is denied; an
admin record is allowed unconditionally; otherwise the user's `accessTo`
list and `${userId}_instances` list are consulted (the latter read
raises — and the catch denies — when the key is absent, because the
`|| []` default in the source is applied to the promise, not to its
resolved value). -/
def isUserAuthorizedForContainer (userId containerId : String) (db : DB) :
    Bool :=
  if userId = "" || containerId = "" then false
  else
    match db.users.find? (fun u => u.userId = userId) with
    | none => false
    | some user =>
      if user.admin then true
      else
        match kvGet db.userLists (userId ++ "_instances") with
        | none => false
        | some userInstances =>
          user.accessTo.contains containerId
            || userInstances.any (fun inst => inst.Id = containerId)

/-- Required-field names the reinstall handler validates, in source
order. -/
def reinstallRequiredFields : List String :=
  ["Node", "Image", "Memory", "Cpu", "Name", "User", "Primary",
   "ContainerId"]

/-- Falsiness test `!instance[field]` for each required field, at the
field's modelled type: a missing `Node`, empty strings, zero numbers and
a false `Primary` are falsy. -/
def instFieldFalsy (inst : Instance) : String → Bool
  | "Node" => inst.Node.isNone
  | "Image" => inst.Image = ""
  | "Memory" => inst.Memory = 0
  | "Cpu" => inst.Cpu = 0
  | "Name" => inst.Name = ""
  | "User" => inst.User = ""
  | "Primary" => inst.Primary = false
  | "ContainerId" => inst.ContainerId = ""
  | _ => false

/-- Missing-field list computed by the reinstall handler
(`requiredFields.filter(field => !instance[field])`). -/
def reinstallMissingFields (inst : Instance) : List String :=
  reinstallRequiredFields.filter (instFieldFalsy inst)

/-- Response category of the `POST /instance/reinstall/:id` handler. -/
inductive RResp where
  | redirectMissingId
  | redirectNotFound
  | errUnauthorized
  | redirectSuspended
  | missingParams (missingFields : List String)
  | prepareFailed
  | remoteError (e : CallErr)
  | invalidResponse
  | success (newContainerId : String)
deriving DecidableEq, Repr

/-- Record written by `updateDatabaseWithNewInstance` after a successful
reinstall: rebuilt from the handler's destructured fields with the new
container id, `parseInt(x) || DEFAULT` defaulting for memory and cpu,
and no `suspended` property (the rebuilt object omits it, so it is
`undefined` afterwards). -/
def reinstallInstanceData (inst : Instance) (node : NodeRef)
    (id newContainerId now : String) : Instance :=
  { Id := id
    ContainerId := newContainerId
    Name := inst.Name
    Image := inst.Image
    Memory := if inst.Memory = 0 then 512 else inst.Memory
    Cpu := if inst.Cpu = 0 then 100 else inst.Cpu
    Env := inst.Env
    Node := some node
    User := inst.User
    Primary := inst.Primary
    suspended := .undef
    suspendedFlagg := false
    suspendedAt := none
    unsuspendedAt := none
    State := none
    updatedAt := now }

/-- Handler `POST /instance/reinstall/:id` of the second startup router.
The middle component of the result records whether an HTTP request was
sent to the remote node daemon.  Pipeline in source order: id presence,
record lookup, authorization, suspension check, required-field
validation (a non-empty missing list answers 400 with the list in the
body), request preparation (which throws when the image is unknown or
the node descriptor incomplete — before any remote call), the single
un-retried axios call, the `containerId` response check, and the
database update that filters both lists by stable `Id` and stores the
rebuilt record at `${id}_instance`. -/
def reinstallHandler (userId id : String) (a1 : NodeOutcome) (now : String)
    (db : DB) : RResp × Bool × DB :=
  if id = "" then (.redirectMissingId, false, db)
  else
    match kvGet db.instKeys (id ++ "_instance") with
    | none => (.redirectNotFound, false, db)
    | some inst =>
      if !isUserAuthorizedForContainer userId inst.Id db then
        (.errUnauthorized, false, db)
      else if inst.suspended.isTrue then (.redirectSuspended, false, db)
      else
        let missingFields := reinstallMissingFields inst
        if missingFields ≠ [] then (.missingParams missingFields, false, db)
        else if !(db.images.contains inst.Image) then (.prepareFailed, false, db)
        else
          match inst.Node with
          | none => (.prepareFailed, false, db)
          | some node =>
            if node.address = "" || node.port = 0 || node.apiKey = "" then
              (.prepareFailed, false, db)
            else
              match axiosReinstallOnce a1 with
              | .error e => (.remoteError e, true, db)
              | .ok none => (.invalidResponse, true, db)
              | .ok (some newContainerId) =>
                let instanceData :=
                  reinstallInstanceData inst node id newContainerId now
                let userKey := inst.User ++ "_instances"
                let userInstances1 :=
                  (((kvGet db.userLists userKey).getD []).filter
                    (fun i => i.Id ≠ id)) ++ [instanceData]
                let globalInstances1 :=
                  (db.globalList.filter (fun i => i.Id ≠ id))
                    ++ [instanceData]
                (.success newContainerId, true,
                 { db with
                   userLists := kvSet db.userLists userKey userInstances1,
                   globalList := globalInstances1,
                   instKeys :=
                     kvSet db.instKeys (id ++ "_instance") instanceData })

/-- Instance-id validation of `routes/Instance/Instance.js`:
`/^[a-zA-Z0-9-_]+$/` on a non-empty string. -/
def validInstanceId (id : String) : Bool :=
  id ≠ "" && id.toList.all (fun c => c.isAlphanum || c = '-' || c = '_')

/-- Normalization `typeof suspended === "boolean" ? suspended : false`
applied on every instance view. -/
def normalizeSuspended : SuspVal → Bool
  | .bool b => b
  | _ => false

/-- JavaScript `value || default` on an optional string: `undefined` and
the empty string take the default. -/
def jsOr (v : Option String) (d : String) : String :=
  match v with
  | none => d
  | some s => if s = "" then d else s

/-- Response category of the `GET /instance/:id` view. -/
inductive VResp where
  | redirectHome
  | redirectInstances
  | errUnauthorized
  | redirectInstalling
  | redirectSuspendedList
  | render
deriving DecidableEq, Repr

/-- Handler `GET /instance/:id`: validates the id, loads the record,
authorizes, then writes the record back with `suspended` coerced to a
boolean and `State` defaulted to `"UNKNOWN"`, before branching on the
normalized `State` and `suspended` values. -/
def viewInstanceHandler (userId id : String) (db : DB) : VResp × DB :=
  if !validInstanceId id then (.redirectHome, db)
  else
    match kvGet db.instKeys (id ++ "_instance") with
    | none => (.redirectInstances, db)
    | some inst =>
      if !isUserAuthorizedForContainer userId inst.Id db then
        (.errUnauthorized, db)
      else
        let inst1 := { inst with
          suspended := .bool (normalizeSuspended inst.suspended),
          State := some (jsOr inst.State "UNKNOWN") }
        let db1 := { db with
          instKeys := kvSet db.instKeys (id ++ "_instance") inst1 }
        if jsOr inst.State "UNKNOWN" = "INSTALLING" then
          (.redirectInstalling, db1)
        else if normalizeSuspended inst.suspended then
          (.redirectSuspendedList, db1)
        else (.render, db1)

/-! Concrete fixtures used by the counterexamples and witnesses. -/

/-- Example node descriptor. -/
def nodeA : NodeRef :=
  { id := "n1", address := "10.0.0.1", port := 8080, apiKey := "k" }

/-- Example instance owned by user `u1`, stored under `c1_instance`. -/
def instA : Instance :=
  { Id := "i1", ContainerId := "c1", Name := "srv", Image := "img:a",
    Memory := 1024, Cpu := 2, Env := ["A=1"], Node := some nodeA,
    User := "u1", Primary := true, suspended := .bool false,
    suspendedFlagg := false, suspendedAt := none, unsuspendedAt := none,
    State := some "RUNNING", updatedAt := "t0" }

/-- Example admin user record. -/
def admUser : PanelUser :=
  { userId := "adm", username := "root", admin := true, accessTo := [] }

/-- Baseline store: `instA` present in all three locations, one regular
user and one admin. -/
def db0 : DB :=
  { instKeys := [("c1_instance", instA)],
    userLists := [("u1_instances", [instA])],
    globalList := [instA],
    users :=
      [{ userId := "u1", username := "alice", admin := false, accessTo := [] },
       admUser],
    images := ["img:a"] }

/-- Instance whose stable `Id` and `ContainerId` coincide (the key both
delete helpers remove is `${Id}_instance`). -/
def instD : Instance := { instA with Id := "d1", ContainerId := "d1" }

/-- Store holding `instD` in all three locations. -/
def dbD : DB :=
  { db0 with
    instKeys := [("d1_instance", instD)],
    userLists := [("u1_instances", [instD])],
    globalList := [instD] }

/-- List entry sharing `instA`'s stable `Id` but carrying a different
`ContainerId` (the per-instance key still lives at `c1_instance`). -/
def instStale : Instance := { instA with ContainerId := "cX" }

/-- Store whose user list and global list hold the `instStale` entry. -/
def db3 : DB :=
  { db0 with
    userLists := [("u1_instances", [instStale])],
    globalList := [instStale] }

/-- Suspended variant of `instA`. -/
def instSusp : Instance := { instA with suspended := .bool true }

/-- Store holding the suspended instance in all three locations. -/
def dbS : DB :=
  { db0 with
    instKeys := [("c1_instance", instSusp)],
    userLists := [("u1_instances", [instSusp])],
    globalList := [instSusp] }

/-- Store where the instance record exists but both lists are empty. -/
def dbE : DB :=
  { db0 with userLists := [("u1_instances", [])], globalList := [] }

/-- Instance record lacking its `Node` field. -/
def instNoNode : Instance := { instA with Node := none }

/-- Store holding the node-less record. -/
def dbN : DB := { db0 with instKeys := [("c1_instance", instNoNode)] }

/-- Instance whose `suspended` holds a non-boolean value and whose
`State` is unset. -/
def instW : Instance := { instA with suspended := .other, State := none }

/-- Store holding the denormalized record. -/
def dbW : DB := { db0 with instKeys := [("c1_instance", instW)] }

/-! Helper lemmas about the store primitives. -/

/-- Reading a key immediately after writing it returns the written
value. -/
theorem kvGet_kvSet_self {α : Type} (l : List (String × α)) (k : String)
    (v : α) : kvGet (kvSet l k v) k = some v := by
  unfold kvGet kvSet
  by_cases h : l.any (fun p => p.1 = k)
  · simp only [if_pos h]
    induction l with
    | nil => simp at h
    | cons a t ih =>
      by_cases ha : a.1 = k
      · simp [ha]
      · simp only [List.any_cons, ha] at h
        simp only [List.map_cons, if_neg ha]
        rw [List.find?_cons_of_neg _ (by simpa using ha)]
        exact ih (by simpa using h)
  · simp only [if_neg h]
    rw [List.find?_append, List.find?_eq_none.mpr, Option.none_or]
    · simp
    · intro x hx
      simp only [decide_eq_true_eq]
      intro hxk
      exact h (List.any_eq_true.mpr ⟨x, hx, by simpa using hxk⟩)

/-- Lists in which no entry carries the searched `ContainerId` make the
edit locator come back empty. -/
theorem findIdx?_none_of_no_containerId (lst : List Instance) (id : String)
    (h : ∀ i ∈ lst, i.ContainerId ≠ id) :
    lst.findIdx? (fun i => i.ContainerId = id) = none :=
  List.findIdx?_eq_none_iff.mpr (fun x hx => by simpa using h x hx)

/-- JavaScript defaulting with a non-empty default never yields the
empty string. -/
theorem jsOr_default_ne_empty (v : Option String) :
    jsOr v "UNKNOWN" ≠ "" := by
  unfold jsOr
  cases v with
  | none => decide
  | some s =>
    by_cases h : s = "" <;> simp [h]

/-! Claim theorems. -/

/-- C9: a user whose record has `admin` set is authorized by
`isUserAuthorizedForContainer` for every container id (given the
non-empty-argument fast-path guards), independently of the user's
instance list and `accessTo` list, so the instance routes' authorization
checks never reject an admin. -/
theorem c9_admin_always_authorized (userId containerId : String) (db : DB)
    (u : PanelUser) (h1 : userId ≠ "") (h2 : containerId ≠ "")
    (hu : db.users.find? (fun x => x.userId = userId) = some u)
    (ha : u.admin = true) :
    isUserAuthorizedForContainer userId containerId db = true := by
  unfold isUserAuthorizedForContainer
  simp [h1, h2, hu, ha]

/-- Witness for C9: the admin record of `db0` is authorized for an
arbitrary container id that appears in no list. -/
theorem c9_witness :
    db0.users.find? (fun x => x.userId = "adm") = some admUser ∧
    admUser.admin = true ∧
    isUserAuthorizedForContainer "adm" "whatever" db0 = true :=
  ⟨by decide, by decide,
   c9_admin_always_authorized "adm" "whatever" db0 admUser (by decide)
     (by decide) (by decide) (by decide)⟩

/-- C10: the `GET /instance/:id` view writes the record back on every
authorized view of an existing instance, with `suspended` coerced to a
boolean (`false` for absent or non-boolean values) and `State` defaulted
to `"UNKNOWN"` when unset, so the stored record afterwards always has a
boolean `suspended` and a non-empty `State`. -/
theorem c10_view_normalizes (userId id : String) (db : DB) (inst : Instance)
    (hid : validInstanceId id = true)
    (hrec : kvGet db.instKeys (id ++ "_instance") = some inst)
    (hauth : isUserAuthorizedForContainer userId inst.Id db = true) :
    kvGet (viewInstanceHandler userId id db).2.instKeys (id ++ "_instance") =
      some { inst with
        suspended := .bool (normalizeSuspended inst.suspended),
        State := some (jsOr inst.State "UNKNOWN") } ∧
    jsOr inst.State "UNKNOWN" ≠ "" ∧
    normalizeSuspended .undef = false ∧
    normalizeSuspended .other = false ∧
    jsOr none "UNKNOWN" = "UNKNOWN" := by
  refine ⟨?_, jsOr_default_ne_empty inst.State, rfl, rfl, rfl⟩
  unfold viewInstanceHandler
  simp only [hid, Bool.not_true, Bool.false_eq_true, if_false, hrec, hauth]
  split
  · simp [kvGet_kvSet_self]
  · split <;> simp [kvGet_kvSet_self]

/-- Witness for C10 at a record whose `suspended` is a non-boolean value
and whose `State` is unset: the stored record becomes
`suspended = false`, `State = "UNKNOWN"`. -/
theorem c10_witness :
    validInstanceId "c1" = true ∧
    kvGet dbW.instKeys ("c1" ++ "_instance") = some instW ∧
    isUserAuthorizedForContainer "u1" instW.Id dbW = true ∧
    kvGet (viewInstanceHandler "u1" "c1" dbW).2.instKeys
        ("c1" ++ "_instance") =
      some { instW with
        suspended := .bool (normalizeSuspended instW.suspended),
        State := some (jsOr instW.State "UNKNOWN") } :=
  ⟨by decide, by decide, by decide,
   (c10_view_normalizes "u1" "c1" dbW instW (by decide) (by decide)
     (by decide)).1⟩

/-- C7: a reinstall request on an instance record whose `Node` field is
missing answers 400 with the missing-field list naming `Node`, leaves
the store untouched and sends no request to the remote node daemon. -/
theorem c7_reinstall_missing_node (userId id : String) (a1 : NodeOutcome)
    (now : String) (db : DB) (inst : Instance)
    (hid : id ≠ "")
    (hrec : kvGet db.instKeys (id ++ "_instance") = some inst)
    (hauth : isUserAuthorizedForContainer userId inst.Id db = true)
    (hsusp : inst.suspended.isTrue = false)
    (hnode : inst.Node = none) :
    reinstallHandler userId id a1 now db =
      (.missingParams (reinstallMissingFields inst), false, db) ∧
    "Node" ∈ reinstallMissingFields inst := by
  have hmem : "Node" ∈ reinstallMissingFields inst := by
    simp [reinstallMissingFields, reinstallRequiredFields, instFieldFalsy,
      hnode]
  refine ⟨?_, hmem⟩
  have hne : reinstallMissingFields inst ≠ [] := by
    intro hempty
    rw [hempty] at hmem
    cases hmem
  unfold reinstallHandler
  simp [hid, hrec, hauth, hsusp, hne]

/-- Witness for C7: reinstalling the node-less record `instNoNode`
answers 400 listing `Node` and no remote call is made. -/
theorem c7_witness :
    ("c1" : String) ≠ "" ∧
    kvGet dbN.instKeys ("c1" ++ "_instance") = some instNoNode ∧
    isUserAuthorizedForContainer "u1" instNoNode.Id dbN = true ∧
    instNoNode.suspended.isTrue = false ∧
    instNoNode.Node = none ∧
    (reinstallHandler "u1" "c1" (.resp 201 (some "c2")) "t1" dbN =
      (.missingParams (reinstallMissingFields instNoNode), false, dbN) ∧
     "Node" ∈ reinstallMissingFields instNoNode) :=
  ⟨by decide, by decide, by decide, by decide, by decide,
   c7_reinstall_missing_node "u1" "c1" (.resp 201 (some "c2")) "t1" dbN
     instNoNode (by decide) (by decide) (by decide) (by decide) (by decide)⟩

/-- C8: the admin unsuspend handler is idempotent — on an existing
record, the first call answers success and stores `suspended = false`,
and an immediately repeated call again answers success and leaves
`suspended = false`. -/
theorem c8_unsuspend_idempotent (id : String) (db : DB) (inst : Instance)
    (hid : id ≠ "")
    (hrec : kvGet db.instKeys (id ++ "_instance") = some inst) :
    (adminUnsuspendInstance id db).1 = .success ∧
    (kvGet (adminUnsuspendInstance id db).2.instKeys
        (id ++ "_instance")).map Instance.suspended = some (.bool false) ∧
    (adminUnsuspendInstance id (adminUnsuspendInstance id db).2).1 =
      .success ∧
    (kvGet (adminUnsuspendInstance id
        (adminUnsuspendInstance id db).2).2.instKeys
        (id ++ "_instance")).map Instance.suspended = some (.bool false) := by
  have step : ∀ (d : DB) (j : Instance),
      kvGet d.instKeys (id ++ "_instance") = some j →
      (adminUnsuspendInstance id d).1 = .success ∧
      kvGet (adminUnsuspendInstance id d).2.instKeys (id ++ "_instance") =
        some { j with suspended := .bool false, suspendedFlagg := false } := by
    intro d j hj
    unfold adminUnsuspendInstance
    simp [hid, hj, kvGet_kvSet_self]
  obtain ⟨r1, k1⟩ := step db inst hrec
  obtain ⟨r2, k2⟩ := step _ _ k1
  refine ⟨r1, ?_, r2, ?_⟩
  · rw [k1]; rfl
  · rw [k2]; rfl

/-- Witness for C8 on the suspended fixture: two successive unsuspends
both succeed and leave `suspended = false`. -/
theorem c8_witness :
    ("c1" : String) ≠ "" ∧
    kvGet dbS.instKeys ("c1" ++ "_instance") = some instSusp ∧
    ((adminUnsuspendInstance "c1" dbS).1 = .success ∧
     (kvGet (adminUnsuspendInstance "c1" dbS).2.instKeys
        ("c1" ++ "_instance")).map Instance.suspended = some (.bool false) ∧
     (adminUnsuspendInstance "c1" (adminUnsuspendInstance "c1" dbS).2).1 =
       .success ∧
     (kvGet (adminUnsuspendInstance "c1"
        (adminUnsuspendInstance "c1" dbS).2).2.instKeys
        ("c1" ++ "_instance")).map Instance.suspended = some (.bool false)) :=
  ⟨by decide, by decide,
   c8_unsuspend_idempotent "c1" dbS instSusp (by decide) (by decide)⟩

/-- C1 counterexample: suspending `c1` (a mutation touching the
`suspended` field) stores `suspended = true` at the per-instance key but
leaves the entry with the same stable `Id` in the owning user's list at
`suspended = false` — the three locations do not agree on the touched
field after this successful mutation. -/
theorem c1_counterexample :
    (adminSuspendInstance "c1" db0).1 = .success ∧
    ((kvGet (adminSuspendInstance "c1" db0).2.instKeys "c1_instance").map
      Instance.suspended) = some (.bool true) ∧
    (((adminSuspendInstance "c1" db0).2.globalList.find?
      (fun i => i.Id = "i1")).map Instance.suspended) = some (.bool true) ∧
    ((((kvGet (adminSuspendInstance "c1" db0).2.userLists
        "u1_instances").getD []).find? (fun i => i.Id = "i1")).map
      Instance.suspended) = some (.bool false) := by decide

/-- C1 amended: full post-state characterization of all four
suspend/unsuspend handlers and of the Startup array synchronizer.  Each
right-hand side is a record update of `db` that does not replace
`userLists` — so none of the four handlers touches the owning user's
instance list, which may therefore disagree on the touched fields.  The
admin handlers rewrite the per-instance record and every global entry
carrying the record's stable `Id`; the api.js handlers rewrite the
per-instance record and only the first global entry carrying the
record's `ContainerId`, also stamping a timestamp.  The Startup
synchronizer installs the identical record in both the user list and
the global list. -/
theorem c1_amended_sync (id now : String) (db : DB) (inst d : Instance)
    (hid : id ≠ "")
    (hrec : kvGet db.instKeys (id ++ "_instance") = some inst) :
    (adminSuspendInstance id db = (.success,
      { db with
        instKeys := kvSet db.instKeys (id ++ "_instance")
          { inst with suspended := .bool true },
        globalList := db.globalList.map (fun obj =>
          if obj.Id = inst.Id then { obj with suspended := .bool true }
          else obj) })) ∧
    (adminUnsuspendInstance id db = (.success,
      { db with
        instKeys := kvSet db.instKeys (id ++ "_instance")
          { inst with suspended := .bool false, suspendedFlagg := false },
        globalList := db.globalList.map (fun obj =>
          if obj.Id = inst.Id then
            { obj with suspended := .bool false, suspendedFlagg := false }
          else obj) })) ∧
    (apiSuspendInstance id now db = some
      { db with
        instKeys := kvSet db.instKeys (id ++ "_instance")
          { inst with suspended := .bool true, suspendedAt := some now },
        globalList := mutateFirst
          (fun obj => obj.ContainerId = inst.ContainerId)
          (fun obj =>
            { obj with suspended := .bool true, suspendedAt := some now })
          db.globalList }) ∧
    (apiUnsuspendInstance id now db = some
      { db with
        instKeys := kvSet db.instKeys (id ++ "_instance")
          { inst with suspended := .bool false, unsuspendedAt := some now },
        globalList := mutateFirst
          (fun obj => obj.ContainerId = inst.ContainerId)
          (fun obj =>
            { obj with suspended := .bool false, unsuspendedAt := some now })
          db.globalList }) ∧
    (kvGet (updateInstanceInUserAndGlobalArrays d db).userLists
        (d.User ++ "_instances") =
      some ((((kvGet db.userLists (d.User ++ "_instances")).getD []).filter
        (fun i => i.Id ≠ d.Id)) ++ [d]) ∧
     (updateInstanceInUserAndGlobalArrays d db).globalList =
       (db.globalList.filter (fun i => i.Id ≠ d.Id)) ++ [d]) := by
  refine ⟨?_, ?_, ?_, ?_, ?_⟩
  · unfold adminSuspendInstance
    simp [hid, hrec]
  · unfold adminUnsuspendInstance
    simp [hid, hrec]
  · unfold apiSuspendInstance
    simp [hrec]
  · unfold apiUnsuspendInstance
    simp [hrec]
  · unfold updateInstanceInUserAndGlobalArrays
    simp [kvGet_kvSet_self]

/-- Witness for C1 amended at the baseline store, exercising the api.js
suspend effect, the admin unsuspend effect, the user-list preservation
of the admin suspend handler and the Startup synchronizer's append. -/
theorem c1_amended_witness :
    ("c1" : String) ≠ "" ∧
    kvGet db0.instKeys ("c1" ++ "_instance") = some instA ∧
    (apiSuspendInstance "c1" "t9" db0 = some
      { db0 with
        instKeys := kvSet db0.instKeys ("c1" ++ "_instance")
          { instA with suspended := .bool true, suspendedAt := some "t9" },
        globalList := mutateFirst
          (fun obj => obj.ContainerId = instA.ContainerId)
          (fun obj =>
            { obj with suspended := .bool true, suspendedAt := some "t9" })
          db0.globalList }) ∧
    (adminUnsuspendInstance "c1" db0 = (.success,
      { db0 with
        instKeys := kvSet db0.instKeys ("c1" ++ "_instance")
          { instA with suspended := .bool false, suspendedFlagg := false },
        globalList := db0.globalList.map (fun obj =>
          if obj.Id = instA.Id then
            { obj with suspended := .bool false, suspendedFlagg := false }
          else obj) })) ∧
    (kvGet (updateInstanceInUserAndGlobalArrays instA db0).userLists
        (instA.User ++ "_instances") =
      some ((((kvGet db0.userLists (instA.User ++ "_instances")).getD
        []).filter (fun i => i.Id ≠ instA.Id)) ++ [instA])) :=
  ⟨by decide, by decide,
   (c1_amended_sync "c1" "t9" db0 instA instA (by decide)
     (by decide)).2.2.1,
   (c1_amended_sync "c1" "t9" db0 instA instA (by decide)
     (by decide)).2.1,
   (c1_amended_sync "c1" "t9" db0 instA instA (by decide)
     (by decide)).2.2.2.2.1⟩

/-- C3 counterexample: editing instance `i1` (old container id `c1`,
new id `c2`) against lists whose entry carries the same stable `Id`
`"i1"` but a different `ContainerId` leaves both lists unchanged — the
entry with the matching stable `Id` is not located, because
`updateInstanceInDatabase` compares `ContainerId`, not `Id`. -/
theorem c3_counterexample :
    (updateInstanceInDatabase "c1" instA none (some 2048) none "c2" "t1"
      db3).1.Id = "i1" ∧
    instStale.Id = "i1" ∧
    (kvGet (updateInstanceInDatabase "c1" instA none (some 2048) none "c2"
      "t1" db3).2.userLists "u1_instances").getD [] = [instStale] ∧
    (updateInstanceInDatabase "c1" instA none (some 2048) none "c2" "t1"
      db3).2.globalList = [instStale] ∧
    (updateInstanceInDatabase "c1" instA none (some 2048) none "c2" "t1"
      db3).1.Memory = 2048 ∧
    instStale.Memory = 1024 := by decide

/-- C3 amended: only the Startup array synchronizer locates entries by
the stable `Id`; the edit handler's database update locates them by the
old `ContainerId` — its found-flag equals an existence test on
`ContainerId`, and a list in which no entry carries the old
`ContainerId` is returned unchanged even when stable ids match. -/
theorem c3_amended_locator (d : Instance) (db : DB) (lst : List Instance)
    (id : String) (upd : Instance) :
    (kvGet (updateInstanceInUserAndGlobalArrays d db).userLists
        (d.User ++ "_instances") =
      some ((((kvGet db.userLists (d.User ++ "_instances")).getD []).filter
        (fun i => i.Id ≠ d.Id)) ++ [d]) ∧
     (updateInstanceInUserAndGlobalArrays d db).globalList =
       (db.globalList.filter (fun i => i.Id ≠ d.Id)) ++ [d]) ∧
    ((editUpdateList lst id upd).2 =
      lst.any (fun i => i.ContainerId = id) ∧
     editUpdateList (lst.filter (fun i => i.ContainerId ≠ id)) id upd =
       (lst.filter (fun i => i.ContainerId ≠ id), false)) := by
  refine ⟨?_, ?_, ?_⟩
  · unfold updateInstanceInUserAndGlobalArrays
    simp [kvGet_kvSet_self]
  · unfold editUpdateList
    rw [← List.findIdx?_isSome]
    cases lst.findIdx? (fun i => i.ContainerId = id) <;> rfl
  · unfold editUpdateList
    rw [findIdx?_none_of_no_containerId]
    intro i hi
    simpa using (List.mem_filter.mp hi).2

/-- C5 counterexample: editing instance `i1` against an empty user list
and empty global list leaves both lists empty — the updated record is
not appended, so it is absent from both lists after the successful
mutation. -/
theorem c5_counterexample :
    (kvGet (updateInstanceInDatabase "c1" instA none (some 2048) none "c2"
      "t1" dbE).2.userLists "u1_instances").getD [] = [] ∧
    (updateInstanceInDatabase "c1" instA none (some 2048) none "c2" "t1"
      dbE).2.globalList = [] ∧
    kvGet (updateInstanceInDatabase "c1" instA none (some 2048) none "c2"
      "t1" dbE).2.instKeys "c2_instance" =
      some (updateInstanceInDatabase "c1" instA none (some 2048) none "c2"
        "t1" dbE).1 := by decide

/-- C5 amended: the Startup array synchronizer does replace-or-append,
so its record is present in both lists afterwards; the edit handler's
database update instead skips a list in which no entry carries the old
`ContainerId`, leaving the user list and the global list exactly as they
were. -/
theorem c5_amended_append_vs_skip (d : Instance) (db : DB) (id : String)
    (inst : Instance) (Image : Option String) (Memory Cpu : Option Nat)
    (ncid now : String)
    (huser : ∀ i ∈ (kvGet db.userLists (inst.User ++ "_instances")).getD [],
      i.ContainerId ≠ id)
    (hglob : ∀ i ∈ db.globalList, i.ContainerId ≠ id) :
    (d ∈ (kvGet (updateInstanceInUserAndGlobalArrays d db).userLists
        (d.User ++ "_instances")).getD [] ∧
     d ∈ (updateInstanceInUserAndGlobalArrays d db).globalList) ∧
    ((updateInstanceInDatabase id inst Image Memory Cpu ncid now
        db).2.userLists = db.userLists ∧
     (updateInstanceInDatabase id inst Image Memory Cpu ncid now
        db).2.globalList = db.globalList) := by
  constructor
  · unfold updateInstanceInUserAndGlobalArrays
    simp [kvGet_kvSet_self]
  · have hu := findIdx?_none_of_no_containerId _ _ huser
    have hg := findIdx?_none_of_no_containerId _ _ hglob
    unfold updateInstanceInDatabase editUpdateList
    simp [hu, hg]

/-- Witness for C5 amended: `instA` appended by the Startup synchronizer
on the empty-list store, while the edit update leaves the same lists
untouched. -/
theorem c5_amended_witness :
    (∀ i ∈ (kvGet dbE.userLists (instA.User ++ "_instances")).getD [],
      i.ContainerId ≠ "cZ") ∧
    (∀ i ∈ dbE.globalList, i.ContainerId ≠ "cZ") ∧
    (instA ∈ (kvGet (updateInstanceInUserAndGlobalArrays instA
        dbE).userLists (instA.User ++ "_instances")).getD [] ∧
     (updateInstanceInDatabase "cZ" instA none none (some 2) "c9" "t2"
        dbE).2.userLists = dbE.userLists) :=
  ⟨by decide, by decide,
   (c5_amended_append_vs_skip instA dbE "cZ" instA none none (some 2) "c9"
     "t2" (by decide) (by decide)).1.1,
   (c5_amended_append_vs_skip instA dbE "cZ" instA none none (some 2) "c9"
     "t2" (by decide) (by decide)).2.1⟩

/-- C4 counterexample: an edit request against a suspended instance
(`instSusp.suspended = true`) is not rejected — the handler answers
success, makes one remote call, relocates the record to `c2_instance`
with the new memory value and deletes the old key. -/
theorem c4_counterexample :
    (kvGet dbS.instKeys "c1_instance").map Instance.suspended =
      some (.bool true) ∧
    (editHandler true "c1" none (some 2048) none (.resp 200 (some "c2"))
      (.resp 200 (some "c2")) "t1" dbS).1 = .ok "c1" "c2" ∧
    (editHandler true "c1" none (some 2048) none (.resp 200 (some "c2"))
      (.resp 200 (some "c2")) "t1" dbS).2.1 = 1 ∧
    (kvGet (editHandler true "c1" none (some 2048) none
      (.resp 200 (some "c2")) (.resp 200 (some "c2")) "t1"
      dbS).2.2.instKeys "c2_instance").map Instance.Memory = some 2048 ∧
    kvGet (editHandler true "c1" none (some 2048) none
      (.resp 200 (some "c2")) (.resp 200 (some "c2")) "t1"
      dbS).2.2.instKeys "c1_instance" = none := by decide

/-- C4 amended: the edit handler enforces the admin gate and its input
and node validations but contains no suspension check — for every
instance record passing those validations, whatever its `suspended`
value, the remote call is performed (at least one HTTP attempt is
made). -/
theorem c4_amended_no_suspension_gate (id : String) (Image : Option String)
    (Memory Cpu : Option Nat) (a1 a2 : NodeOutcome) (now : String)
    (db : DB) (inst : Instance) (node : NodeRef)
    (hid : id ≠ "") (hlen : id.length ≤ 64)
    (hparam : (jsTruthyOptStr Image || jsTruthyOptNat Memory
      || jsTruthyOptNat Cpu) = true)
    (hm : editMemoryInvalid Memory = false)
    (hc : editCpuInvalid Cpu = false)
    (him : editImageInvalid Image = false)
    (hrec : kvGet db.instKeys (id ++ "_instance") = some inst)
    (hnode : inst.Node = some node)
    (haddr : node.address ≠ "") (hport : node.port ≠ 0)
    (hkey : node.apiKey ≠ "") :
    (editHandler true id Image Memory Cpu a1 a2 now db).2.1 =
      editNodeCallAttempts a1 ∧
    1 ≤ editNodeCallAttempts a1 := by
  constructor
  · unfold editHandler
    simp only [hid, Nat.not_lt.mpr hlen, hparam, hm, hc, him, hrec, hnode,
      haddr, hport, hkey, decide_eq_true_eq, decide_eq_false_iff_not,
      if_neg, if_pos, Bool.not_true, Bool.not_false, Bool.or_self,
      Bool.false_or, Bool.or_false, decide_not]
    simp [hid, Nat.not_lt.mpr hlen, hparam, hm, hc, him, hrec, hnode, haddr,
      hport, hkey]
    cases h : editNodeCall a1 a2 with
    | error e => simp [h]
    | ok b => cases b <;> simp [h]
  · unfold editNodeCallAttempts
    cases axiosEditOnce a1 with
    | ok r => exact Nat.le_refl 1
    | error e =>
      by_cases h : editRetryable e = true
      · simp [h]
      · simp [h]

/-- Witness for C4 amended: the hypotheses hold at the suspended fixture
`dbS`, and the remote call is still made. -/
theorem c4_amended_witness :
    kvGet dbS.instKeys ("c1" ++ "_instance") = some instSusp ∧
    instSusp.suspended = .bool true ∧
    ((editHandler true "c1" none (some 2048) none (.resp 200 (some "c2"))
        (.resp 200 (some "c2")) "t1" dbS).2.1 =
      editNodeCallAttempts (.resp 200 (some "c2")) ∧
     1 ≤ editNodeCallAttempts (.resp 200 (some "c2"))) :=
  ⟨by decide, by decide,
   c4_amended_no_suspension_gate "c1" none (some 2048) none
     (.resp 200 (some "c2")) (.resp 200 (some "c2")) "t1" dbS instSusp
     nodeA (by decide) (by decide) (by decide) (by decide) (by decide)
     (by decide) (by decide) (by decide) (by decide) (by decide)
     (by decide)⟩

/-- C6 counterexample: the reinstall handler's node call is not retried —
with a first attempt answering HTTP 500 and a second attempt that would
succeed, the call surfaces the 500 — whereas the edit handler's call
does retry the same pair to success; moreover a 4xx response to the
edit call is not surfaced as an error at all (its `validateStatus`
accepts every status below 500). -/
theorem c6_counterexample :
    reinstallNodeCall (.resp 500 none) (.resp 201 (some "c2")) =
      .error (.httpStatus 500) ∧
    editNodeCall (.resp 500 none) (.resp 201 (some "c2")) =
      .ok (some "c2") ∧
    editNodeCall (.resp 404 none) (.resp 201 (some "c2")) = .ok none :=
  ⟨rfl, rfl, rfl⟩

/-- C6 amended: only the edit handler's node call retries, exactly once,
and only when the first attempt times out (`ECONNABORTED`) or returns
HTTP ≥ 500; any response below 500 (including every 4xx) resolves
successfully on the first attempt, a non-timeout transport failure is
surfaced without retry, and the reinstall handler's call never retries
at all. -/
theorem c6_amended_retry_policy (s4 s5 : Nat) (b4 b5 : Option String)
    (a1 a2 a3 : NodeOutcome) (h4 : s4 < 500) (h5 : 500 ≤ s5) :
    editNodeCall (.resp s4 b4) a2 = .ok b4 ∧
    editNodeCall .timeout a2 = axiosEditOnce a2 ∧
    editNodeCall (.resp s5 b5) a2 = axiosEditOnce a2 ∧
    editNodeCall .netFail a2 = .error .netFail ∧
    reinstallNodeCall a1 a3 = axiosReinstallOnce a1 := by
  refine ⟨?_, rfl, ?_, rfl, rfl⟩
  · unfold editNodeCall axiosEditOnce
    simp [h4]
  · unfold editNodeCall
    rw [show axiosEditOnce (.resp s5 b5) = .error (.httpStatus s5) by
      unfold axiosEditOnce; simp [Nat.not_lt.mpr h5]]
    unfold editRetryable
    simp [h5]

/-- Witness for C6 amended at concrete statuses 404 and 503. -/
theorem c6_amended_witness :
    (404 : Nat) < 500 ∧ (500 : Nat) ≤ 503 ∧
    (editNodeCall (.resp 404 none) (.resp 201 (some "x")) = .ok none ∧
     editNodeCall (.resp 503 none) (.resp 201 (some "x")) =
       axiosEditOnce (.resp 201 (some "x"))) :=
  ⟨by decide, by decide,
   (c6_amended_retry_policy 404 503 none none .timeout
     (.resp 201 (some "x")) .netFail (by decide) (by decide)).1,
   (c6_amended_retry_policy 404 503 none none .timeout
     (.resp 201 (some "x")) .netFail (by decide) (by decide)).2.2.1⟩

/-- C2: evaluation of `routes/api.js`'s `deleteInstance` at a failing
remote call.  The helper rejects without touching the store — the
instance is still present at its per-instance key, in the owner's list
and in the global list — although the code's own comment says the
records should be cleaned up even when the node is down, and although
the admin router's `deleteInstance` (second half of the conjunction)
does remove all three on the very same failing input. -/
theorem c2_api_delete_aborts_cleanup :
    apiDeleteInstance instD false dbD = (false, dbD) ∧
    kvGet dbD.instKeys "d1_instance" = some instD ∧
    instD ∈ (kvGet dbD.userLists "u1_instances").getD [] ∧
    instD ∈ dbD.globalList ∧
    ((adminDeleteInstance instD false dbD).1 = true ∧
     kvGet (adminDeleteInstance instD false dbD).2.instKeys
       "d1_instance" = none ∧
     ((kvGet (adminDeleteInstance instD false dbD).2.userLists
        "u1_instances").getD []).all (fun i => i.Id ≠ "d1") = true ∧
     (adminDeleteInstance instD false dbD).2.globalList.all
       (fun i => i.Id ≠ "d1") = true) := by decide
